import Mathlib

/-!
Verification of the GM_config ambient type declarations (src/index.d.ts and the
unnamed earlier declaration file src/unnamed/part_000).

The repository contains no executable code, only TypeScript type declarations,
so the embedding models the declarations themselves: the key set of each
TypeMap declaration, the property shape of each field variant interface, the
member table of the Instance interface, and a small structural semantics of
TypeScript types (hasType) used to decide whether a concrete record value is
within a declared object type.
-/

namespace GMConfig

/-- Structural model of the TypeScript types appearing in the declarations.
Numbers are modelled as integers (no claim depends on fractional values),
DOM element types are opaque and function types are opaque. -/
inductive Ty where
  /-- the TypeScript type string -/
  | str : Ty
  /-- the TypeScript type number -/
  | num : Ty
  /-- the TypeScript type boolean -/
  | boolT : Ty
  /-- the TypeScript type undefined -/
  | undef : Ty
  /-- the TypeScript type unknown, which every value inhabits -/
  | unknown : Ty
  /-- the TypeScript type void (return type of the action methods) -/
  | voidT : Ty
  /-- a string literal type, such as the discriminant of a field variant -/
  | lit : String → Ty
  /-- a union of string literal types, such as Type = keyof TypeMap -/
  | litUnion : List String → Ty
  /-- a union of two types -/
  | union : Ty → Ty → Ty
  /-- an opaque function type (callbacks, click handlers) -/
  | fnT : Ty
  /-- a reference to a type parameter, such as F or T -/
  | param : String → Ty
  /-- an array type elem[] -/
  | listOf : Ty → Ty
  /-- a tuple type with a rest element: readonly [head, ...rest[]] -/
  | tupleRest : Ty → Ty → Ty
  /-- a two element tuple type [a, b] -/
  | tuple2 : Ty → Ty → Ty
  /-- the DOM Element type, opaque -/
  | elemT : Ty
  /-- an opaque external named type, such as the DOM map types -/
  | named : String → Ty
deriving DecidableEq, Repr

/-- Concrete runtime values, used to decide membership of a record in a
declared object type. -/
inductive Val where
  | str : String → Val
  | num : Int → Val
  | bool : Bool → Val
  | fn : Val
  | undef : Val
  | elem : Val
  | list : List Val → Val
deriving Repr

/-- Structural membership of a value in a modelled TypeScript type. The
recursion is structural on the type. -/
def hasType : Val → Ty → Bool
  | _,  .unknown => true
  | .str _, .str => true
  | .num _, .num => true
  | .bool _, .boolT => true
  | .undef, .undef => true
  | .str s, .lit t => s == t
  | .str s, .litUnion ls => ls.contains s
  | v, .union a b => hasType v a || hasType v b
  | .fn, .fnT => true
  | .elem, .elemT => true
  | .list l, .listOf t => l.all (fun x => hasType x t)
  | .list l, .tupleRest hd rest =>
      match l with
      | [] => false
      | x :: xs => hasType x hd && xs.all (fun y => hasType y rest)
  | .list l, .tuple2 a b =>
      match l with
      | [x, y] => hasType x a && hasType y b
      | _ => false
  | _, _ => false

/-- Whether a declared property is required or marked optional with a
question mark. -/
inductive Presence where
  | required : Presence
  | optional : Presence
deriving DecidableEq, Repr

/-- One property declaration inside an interface or object type. -/
structure PropDecl where
  name : String
  presence : Presence
  ty : Ty
deriving DecidableEq, Repr

/-- A record value: a list of named properties. -/
def Rec : Type := List (String × Val)

/-- Look up a property of a record by name. -/
def lookupProp (r : Rec) (n : String) : Option Val :=
  (r.find? (fun p => p.1 == n)).map (fun p => p.2)

/-- A record satisfies one property declaration: if the property is present
its value is in the declared type, and if absent the declaration must be
optional. -/
def satisfiesProp (r : Rec) (p : PropDecl) : Bool :=
  match lookupProp r p.name with
  | some v => hasType v p.ty
  | none => p.presence == .optional

/-- A record is within a declared object shape when it satisfies every
declared property (TypeScript structural typing; excess properties are
allowed). -/
def recHasShape (s : List PropDecl) (r : Rec) : Bool :=
  s.all (satisfiesProp r)

/-- The TypeMap interface of src/index.d.ts (lines 30 to 42): key and value
type of each entry, in declaration order. -/
def TypeMapDecl : List (String × Ty) :=
  [("text", .str),
   ("textarea", .str),
   ("unsigned int", .num),
   ("int", .num),
   ("float", .num),
   ("checkbox", .boolT),
   ("radio", .str),
   ("select", .undef),
   ("button", .undef),
   ("hidden", .unknown)]

/-- The keys of the TypeMap interface of src/index.d.ts. -/
def TypeMapKeys : List String := TypeMapDecl.map (fun p => p.1)

/-- The TypeMap type alias of src/unnamed/part_000 (lines 20 to 31): key and
value type of each entry, in declaration order. It has no entry for int. -/
def TypeMapDecl_part000 : List (String × Ty) :=
  [("text", .str),
   ("textarea", .str),
   ("unsigned int", .num),
   ("float", .num),
   ("checkbox", .boolT),
   ("radio", .str),
   ("select", .undef),
   ("button", .undef),
   ("hidden", .unknown)]

/-- The keys of the TypeMap alias of src/unnamed/part_000. -/
def TypeMapKeys_part000 : List String := TypeMapDecl_part000.map (fun p => p.1)

/-- The ten type names listed by the specification as the field definition
vocabulary (the specification hyphenates the third as unsigned-int; the
declared key is the two word string). -/
def specTenTypeNames : List String :=
  ["text", "textarea", "unsigned int", "int", "float",
   "checkbox", "radio", "select", "hidden", "button"]

/-- The LabelPosition union of src/index.d.ts (lines 9 to 13), in declaration
order. -/
def LabelPosition : List String := ["above", "below", "right", "left"]

/-- The LabelPosition union of src/unnamed/part_000 (lines 9 to 12): it has
only three members, without left. -/
def LabelPosition_part000 : List String := ["right", "below", "above"]

/-- The LabelSection union of src/index.d.ts: string, Element, or a tuple of
a heading and a possibly undefined subheading. -/
def LabelSection : Ty :=
  .union .str (.union .elemT
    (.tuple2 (.union .str .elemT) (.union .str (.union .elemT .undef))))

/-- The Field interface of src/index.d.ts (lines 74 to 80): the type property
ranges over Type = keyof TypeMap, label is a required string, labelPos is an
optional plain string, section is an optional LabelSection. -/
def fieldProps : List PropDecl :=
  [⟨"type", .required, .litUnion TypeMapKeys⟩,
   ⟨"label", .required, .str⟩,
   ⟨"labelPos", .optional, .str⟩,
   ⟨"section", .optional, LabelSection⟩]

/-- The Field interface of src/unnamed/part_000 (lines 33 to 40), with its
generic discriminant instantiated at its default Type: labelPos is again an
optional plain string and section an optional string. -/
def fieldProps_part000 : List PropDecl :=
  [⟨"label", .required, .str⟩,
   ⟨"labelPos", .optional, .str⟩,
   ⟨"type", .required, .litUnion TypeMapKeys_part000⟩,
   ⟨"section", .optional, .str⟩]

/-- Property list of a field variant interface extending Field with the
discriminant narrowed to one string literal, followed by the extra
properties the variant declares. -/
def variantProps (d : String) (extra : List PropDecl) : List PropDecl :=
  ⟨"type", .required, .lit d⟩ ::
  ⟨"label", .required, .str⟩ ::
  ⟨"labelPos", .optional, .str⟩ ::
  ⟨"section", .optional, LabelSection⟩ :: extra

namespace fields

/-- fields.TextField of src/index.d.ts. -/
def TextField : List PropDecl :=
  variantProps ("text")
    [⟨"default", .required, .str⟩, ⟨"size", .optional, .num⟩]

/-- fields.TextAreaField of src/index.d.ts. -/
def TextAreaField : List PropDecl :=
  variantProps ("textarea")
    [⟨"default", .required, .str⟩, ⟨"size", .optional, .num⟩]

/-- fields.UIntField of src/index.d.ts. -/
def UIntField : List PropDecl :=
  variantProps ("unsigned int")
    [⟨"default", .required, .num⟩, ⟨"min", .optional, .num⟩,
     ⟨"max", .optional, .num⟩]

/-- fields.IntField of src/index.d.ts. -/
def IntField : List PropDecl :=
  variantProps ("int")
    [⟨"min", .optional, .num⟩, ⟨"max", .optional, .num⟩,
     ⟨"default", .required, .num⟩]

/-- fields.FloatField of src/index.d.ts. -/
def FloatField : List PropDecl :=
  variantProps ("float") [⟨"default", .required, .num⟩]

/-- fields.CheckboxField of src/index.d.ts. -/
def CheckboxField : List PropDecl :=
  variantProps ("checkbox") [⟨"default", .required, .boolT⟩]

/-- fields.SelectField of src/index.d.ts (lines 137 to 142): the declared
discriminant literal is checkbox, options is a required nonempty readonly
string tuple, default is optional. -/
def SelectField : List PropDecl :=
  variantProps ("checkbox")
    [⟨"options", .required, .tupleRest .str .str⟩,
     ⟨"default", .optional, .str⟩]

/-- fields.RadioField of src/index.d.ts (lines 144 to 149). -/
def RadioField : List PropDecl :=
  variantProps ("radio")
    [⟨"options", .required, .tupleRest .str .str⟩,
     ⟨"default", .optional, .str⟩]

/-- fields.HiddenField of src/index.d.ts: no default property, a required
string value. -/
def HiddenField : List PropDecl :=
  variantProps ("hidden") [⟨"value", .required, .str⟩]

/-- fields.ButtonField of src/index.d.ts: no default property, an optional
size and a required click handler. -/
def ButtonField : List PropDecl :=
  variantProps ("button")
    [⟨"size", .optional, .num⟩, ⟨"click", .required, .fnT⟩]

end fields

/-- The names of the ten field variant interfaces declared in the fields
namespace of src/index.d.ts, in declaration order. -/
def fieldVariantNames : List String :=
  ["TextField", "TextAreaField", "UIntField", "IntField", "FloatField",
   "CheckboxField", "SelectField", "RadioField", "HiddenField", "ButtonField"]

/-- The declared shape of each field variant interface, by name. -/
def variantShape : String → List PropDecl
  | "TextField" => fields.TextField
  | "TextAreaField" => fields.TextAreaField
  | "UIntField" => fields.UIntField
  | "IntField" => fields.IntField
  | "FloatField" => fields.FloatField
  | "CheckboxField" => fields.CheckboxField
  | "SelectField" => fields.SelectField
  | "RadioField" => fields.RadioField
  | "HiddenField" => fields.HiddenField
  | "ButtonField" => fields.ButtonField
  | _ => []

/-- The string literal assigned to the type discriminant of a declared
shape, when there is one. -/
def discriminantOf (s : List PropDecl) : Option String :=
  match s.find? (fun p => p.name == "type") with
  | some p =>
      match p.ty with
      | .lit d => some d
      | _ => none
  | none => none

/-- The discriminant of the shape exists and is a key of TypeMap. -/
def discriminantInTypeMap (s : List PropDecl) : Bool :=
  match discriminantOf s with
  | some d => TypeMapKeys.contains d
  | none => false

/-- Status of one named property within a declared shape: required there,
optional there, or not declared at all. -/
inductive PropStatus where
  | required : PropStatus
  | optional : PropStatus
  | absent : PropStatus
deriving DecidableEq, Repr

/-- The status of the property named n in the shape s. -/
def propStatus (s : List PropDecl) (n : String) : PropStatus :=
  match s.find? (fun p => p.name == n) with
  | some p =>
      match p.presence with
      | .required => .required
      | .optional => .optional
  | none => .absent

/-- The declared type of the options property of a shape, when present. -/
def optionsTyOf (s : List PropDecl) : Option Ty :=
  (s.find? (fun p => p.name == "options")).map (fun p => p.ty)

/-- The Events interface of src/index.d.ts (lines 174 to 220): the five
lifecycle callback members, every one optional and function typed. -/
def eventsMembers : List PropDecl :=
  [⟨"onInit", .optional, .fnT⟩,
   ⟨"onOpen", .optional, .fnT⟩,
   ⟨"onSave", .optional, .fnT⟩,
   ⟨"onClose", .optional, .fnT⟩,
   ⟨"onReset", .optional, .fnT⟩]

/-- Kind of an Instance member: a method signature or a property. -/
inductive MemberKind where
  | method : MemberKind
  | property : MemberKind
deriving DecidableEq, Repr

/-- One member of the Instance interface: its name, whether it is declared
as a method signature or as a property, and its type (the return type for a
method, the declared type for a property). -/
structure Member where
  name : String
  kind : MemberKind
  ty : Ty
deriving DecidableEq, Repr

/-- The member is a method signature. -/
def Member.isMethod (m : Member) : Bool :=
  match m.kind with
  | .method => true
  | .property => false

/-- The type is a function type. -/
def Ty.isFn : Ty → Bool
  | .fnT => true
  | _ => false

/-- The member is a property whose declared type is not a function type: a
stored data member rather than an assignable lifecycle callback slot. -/
def Member.isDataProp (m : Member) : Bool :=
  match m.kind with
  | .property => !m.ty.isFn
  | .method => false

/-- The Instance interface of src/index.d.ts (lines 241 to 352) at fields
parameter F, member by member in declaration order, overload signatures
included: the method signatures, then the four callback properties, then
the four data properties. -/
def instanceMembers (F : Ty) : List Member :=
  [⟨"init", .method, .voidT⟩,
   ⟨"open", .method, .voidT⟩,
   ⟨"set", .method, .voidT⟩,
   ⟨"init", .method, .voidT⟩,
   ⟨"open", .method, .voidT⟩,
   ⟨"save", .method, .voidT⟩,
   ⟨"close", .method, .voidT⟩,
   ⟨"set", .method, .voidT⟩,
   ⟨"get", .method, .union (.param ("T")) .undef⟩,
   ⟨"write", .method, .voidT⟩,
   ⟨"read", .method, .voidT⟩,
   ⟨"reset", .method, .voidT⟩,
   ⟨"create", .method, .named ("ElementTagNameMap[T]")⟩,
   ⟨"create", .method, .named ("ElementTagNameMap[T] & P")⟩,
   ⟨"create", .method, .named ("Text")⟩,
   ⟨"center", .method, .voidT⟩,
   ⟨"remove", .method, .voidT⟩,
   ⟨"onOpen", .property, .fnT⟩,
   ⟨"onSave", .property, .fnT⟩,
   ⟨"onClose", .property, .fnT⟩,
   ⟨"onReset", .property, .fnT⟩,
   ⟨"id", .property, .str⟩,
   ⟨"fields", .property, F⟩,
   ⟨"title", .property, .str⟩,
   ⟨"css", .property, .str⟩]

/-- The declared type of the first member with the given name (what a
property access through the interface sees). -/
def memberTy (ms : List Member) (n : String) : Option Ty :=
  (ms.find? (fun m => m.name == n)).map (fun m => m.ty)

/-- Type level view of an options record C extending InitOptions passed to
the constructor: the types of its four required components. Subtyping lets
C carry further members; only the fields component matters here. -/
structure OptionsTy where
  id : Ty
  title : Ty
  fieldsTy : Ty
  css : Ty

/-- The GM_configInit constructor of src/index.d.ts (lines 354 to 357): at
an options record C it returns an Instance whose fields parameter is the
fields member type of C. -/
def gmConfigInitNew (C : OptionsTy) : List Member :=
  instanceMembers C.fieldsTy

/-- A field record within the declared Field type that carries a labelPos
string outside the LabelPosition union. -/
def labelPosBadField : Rec :=
  [("type", .str ("text")), ("label", .str ("L")),
   ("labelPos", .str ("diagonal"))]

/-- A record with every required TextField property except default. -/
def textFieldNoDefault : Rec :=
  [("type", .str ("text")), ("label", .str ("L"))]

/-- The twelve operation names the Instance contract is specified to
declare. -/
def specTwelveOperations : List String :=
  ["init", "open", "close", "save", "read", "write", "reset", "get", "set",
   "create", "center", "remove"]

/-- The method signature names of the Instance interface in declaration
order, overloads included. -/
def methodSignatureNames : List String :=
  ["init", "open", "set", "init", "open", "save", "close", "set", "get",
   "write", "read", "reset", "create", "create", "create", "center",
   "remove"]

/-- C1: for every options record C extending InitOptions, the constructed
Instance reads back a fields member whose declared type is exactly the
fields component of C: construction followed by reading fields is the
identity on the fields shape. -/
theorem constructor_fields_roundtrip (C : OptionsTy) :
    memberTy (gmConfigInitNew C) ("fields") = some C.fieldsTy := rfl

/-- C2 counterexample: the TypeMap declaration of src/unnamed/part_000 does
not have the full ten element key set, because int is one of the ten type
names but is not among its keys. -/
theorem typemap_part000_missing_int :
    ("int") ∈ specTenTypeNames ∧ ("int") ∉ TypeMapKeys_part000 := by decide

/-- C2 amended: the TypeMap interface of src/index.d.ts has exactly the ten
type names as its key set, while the TypeMap alias of src/unnamed/part_000
has exactly the nine remaining keys, missing int. -/
theorem typemap_keys_per_declaration :
    TypeMapKeys.Perm specTenTypeNames ∧
    TypeMapKeys_part000 = TypeMapKeys.erase ("int") := by
  refine ⟨by decide, rfl⟩

/-- C3: for every declared field variant interface in the fields namespace,
the string literal assigned to its type discriminant is a key of the
TypeMap type-to-value mapping. -/
theorem variant_discriminants_are_typemap_keys :
    ∀ n ∈ fieldVariantNames, discriminantInTypeMap (variantShape n) = true := by
  decide

/-- Witness for C3 at the TextField variant. -/
theorem variant_discriminants_are_typemap_keys_witness :
    discriminantInTypeMap (variantShape ("TextField")) = true :=
  variant_discriminants_are_typemap_keys ("TextField") (by decide)

/-- C4: SelectField is declared with discriminant literal checkbox, the same
literal as CheckboxField, and no declared field variant carries the select
key of TypeMap. -/
theorem selectfield_shares_checkbox_discriminant :
    discriminantOf fields.SelectField = some ("checkbox") ∧
    discriminantOf fields.SelectField = discriminantOf fields.CheckboxField ∧
    ∀ n ∈ fieldVariantNames, discriminantOf (variantShape n) ≠ some ("select") := by
  refine ⟨by decide, by decide, by decide⟩

/-- Witness for C4 at the RadioField variant. -/
theorem selectfield_shares_checkbox_discriminant_witness :
    discriminantOf (variantShape ("RadioField")) ≠ some ("select") :=
  selectfield_shares_checkbox_discriminant.2.2 ("RadioField") (by decide)

/-- C5: provided the fields parameter F is a record shape and not itself a
function type (which F extends ConfigFields guarantees), the Instance
interface declares as method signatures exactly the twelve operations init,
open, close, save, read, write, reset, get, set, create, center, remove,
and its stored data members (properties whose declared type is not a
function type) are exactly id, fields, title, css, with id, title, css
typed string and fields typed by F. The four remaining properties are the
function typed lifecycle callback slots. -/
theorem instance_operations_and_data_members (F : Ty) (hF : F.isFn = false) :
    ((instanceMembers F).filter Member.isMethod).map Member.name =
      methodSignatureNames ∧
    methodSignatureNames.dedup.Perm specTwelveOperations ∧
    (instanceMembers F).filter Member.isDataProp =
      [⟨"id", .property, .str⟩, ⟨"fields", .property, F⟩,
       ⟨"title", .property, .str⟩, ⟨"css", .property, .str⟩] := by
  refine ⟨rfl, by decide, ?_⟩
  have e1 : Ty.isFn .fnT = true := rfl
  have e2 : Ty.isFn .str = false := rfl
  have e3 : Ty.isFn .voidT = false := rfl
  simp [instanceMembers, List.filter, Member.isDataProp, Member.isMethod,
    e1, e2, e3, hF]

/-- Witness for C5 at the default fields shape ConfigFields, modelled as an
opaque named record type. -/
theorem instance_operations_and_data_members_witness :
    Ty.isFn (.named ("ConfigFields")) = false ∧
    (instanceMembers (.named ("ConfigFields"))).filter Member.isDataProp =
      [⟨"id", .property, .str⟩, ⟨"fields", .property, .named ("ConfigFields")⟩,
       ⟨"title", .property, .str⟩, ⟨"css", .property, .str⟩] :=
  ⟨rfl, (instance_operations_and_data_members (.named ("ConfigFields")) rfl).2.2⟩

/-- C6: the declarations type labelPos as a plain optional string, so a
field record whose labelPos is the string diagonal, outside the four member
LabelPosition union, is still within the declared Field type of both
declaration files, even though the declared (and unused) LabelPosition
union and the prose above Field admit only above, below, left, right. -/
theorem labelpos_accepts_any_string :
    recHasShape fieldProps labelPosBadField = true ∧
    recHasShape fieldProps_part000 labelPosBadField = true ∧
    ("diagonal") ∉ LabelPosition ∧
    (fieldProps.find? (fun p => p.name == "labelPos")).map PropDecl.ty =
      some .str := by decide

/-- C7 counterexample: a record carrying every required TextField property
except default is not within the declared TextField type, and becomes well
typed exactly when default is added, so default is not optional on
TextField. -/
theorem textfield_default_not_optional :
    recHasShape fields.TextField textFieldNoDefault = false ∧
    recHasShape fields.TextField
      (("default", Val.str ("d")) :: textFieldNoDefault) = true := by decide

/-- C7 amended: the default property is required on the text, textarea,
unsigned int, int, float and checkbox variants, optional only on the select
and radio variants, and not declared at all on the hidden and button
variants. -/
theorem default_status_per_variant :
    propStatus fields.TextField ("default") = .required ∧
    propStatus fields.TextAreaField ("default") = .required ∧
    propStatus fields.UIntField ("default") = .required ∧
    propStatus fields.IntField ("default") = .required ∧
    propStatus fields.FloatField ("default") = .required ∧
    propStatus fields.CheckboxField ("default") = .required ∧
    propStatus fields.SelectField ("default") = .optional ∧
    propStatus fields.RadioField ("default") = .optional ∧
    propStatus fields.HiddenField ("default") = .absent ∧
    propStatus fields.ButtonField ("default") = .absent := by decide

/-- C8 counterexample: onInit is an optional member of the Events interface
but is not among the declared member names of the Instance interface, so it
cannot be registered by direct property assignment on a typed Instance. -/
theorem oninit_not_an_instance_property :
    ("onInit") ∈ eventsMembers.map PropDecl.name ∧
    ("onInit") ∉ (instanceMembers .unknown).map Member.name := by decide

/-- C8 amended: all five lifecycle callbacks are optional members of the
Events interface, but only onOpen, onSave, onClose, onReset are also
declared properties of Instance; onInit is registrable only through the
events option. -/
theorem lifecycle_callback_registration (F : Ty) :
    eventsMembers.map PropDecl.name =
      ["onInit", "onOpen", "onSave", "onClose", "onReset"] ∧
    eventsMembers.all (fun p => p.presence == .optional) = true ∧
    ((instanceMembers F).filter (fun m => !m.isMethod)).map Member.name =
      ["onOpen", "onSave", "onClose", "onReset", "id", "fields", "title",
       "css"] ∧
    ("onInit") ∉ (["onOpen", "onSave", "onClose", "onReset", "id", "fields",
       "title", "css"] : List String) :=
  ⟨rfl, rfl, rfl, by decide⟩

/-- C9: the get method of Instance is declared with return type T union
undefined, and the undefined value inhabits that union whatever T is, so
every well typed call must account for an absent value. -/
theorem get_return_includes_undefined (F : Ty) :
    memberTy (instanceMembers F) ("get") =
      some (.union (.param ("T")) .undef) ∧
    ∀ t : Ty, hasType .undef (.union t .undef) = true := by
  refine ⟨rfl, ?_⟩
  intro t
  have h : hasType .undef (.union t .undef) = (hasType .undef t || true) := rfl
  rw [h, Bool.or_true]

/-- C10: the options property of SelectField and RadioField is declared
with the nonempty readonly tuple type of strings, and every value of that
tuple type has at least one element. -/
theorem select_radio_options_nonempty :
    optionsTyOf fields.SelectField = some (.tupleRest .str .str) ∧
    optionsTyOf fields.RadioField = some (.tupleRest .str .str) ∧
    ∀ l : List Val, hasType (.list l) (.tupleRest .str .str) = true →
      1 ≤ l.length := by
  refine ⟨rfl, rfl, ?_⟩
  intro l h
  cases l with
  | nil => exact absurd h (by decide)
  | cons x xs => exact Nat.succ_le_succ (Nat.zero_le _)

/-- Witness for C10 at a one element options list. -/
theorem select_radio_options_nonempty_witness :
    hasType (.list [Val.str ("a")]) (.tupleRest .str .str) = true ∧
    1 ≤ (List.length [Val.str ("a")]) :=
  ⟨by decide, select_radio_options_nonempty.2.2 [Val.str ("a")] (by decide)⟩

end GMConfig
